import Mathlib

/-!
Verification of the Watchman agent client against its specification.

The repository ships one JavaScript source file, `src/agent/web/static/js/app.js`
(the local web control surface).  Its global configuration, its API-call helper
`makeApiCall`, and its utility functions `formatBytes` and `setDebugMode` are
embedded below directly from that source.  The collection/delivery core that the
specification describes (report assembler, delivery queue, sender, scheduler)
is not part of `src/`; those operations are modelled from the specification, as
marked in each doc comment.

Modelling conventions: timestamps and durations are naturals (milliseconds);
JavaScript numbers that matter only through comparisons and integer logarithms
are idealized as exact integers/rationals; a JavaScript exception is an
`Except.error`; `NaN` flowing through `formatBytes` is an `Option` `none`.
-/

namespace AgentClient

/-- Shape of the global configuration object `APP_CONFIG`
(src/agent/web/static/js/app.js lines 9-14). -/
structure AppConfig where
  refreshInterval : ℕ
  apiTimeout : ℕ
  maxRetries : ℕ
  debugMode : Bool
deriving DecidableEq

/-- The configuration values of `APP_CONFIG` as written in the source
(src/agent/web/static/js/app.js lines 9-14). -/
def APP_CONFIG : AppConfig :=
  { refreshInterval := 10000
    apiTimeout := 30000
    maxRetries := 3
    debugMode := false }

/-! ## `makeApiCall` (src/agent/web/static/js/app.js lines 247-294) -/

/-- The four ways the `try` body of `makeApiCall` can exit: a normal return,
the `throw` on a non-ok HTTP status (line 271), a rejection of `fetch` itself
(network failure), and a rejection of `response.json()` (parse failure). -/
inductive ApiExit
  | success
  | httpStatusError
  | networkError
  | jsonParseError
deriving DecidableEq

/-- State of `appState.activeRequests` right after `makeApiCall` adds the fresh
`requestId` (line 249). -/
def makeApiCallEnter (active : Finset ℕ) (requestId : ℕ) : Finset ℕ :=
  insert requestId active

/-- State of `appState.activeRequests` after `makeApiCall` finishes on exit path
`p`: the body between `try` and `finally` never touches `activeRequests` on any
path, and the `finally` block (line 292) deletes `requestId` unconditionally. -/
def makeApiCallExit (active : Finset ℕ) (requestId : ℕ) (p : ApiExit) : Finset ℕ :=
  match p with
  | _ => (makeApiCallEnter active requestId).erase requestId

/-- Effect on `appState.activeRequests` of a sequence of completed `makeApiCall`
invocations, each given by its generated request id and its exit path. -/
def runApiCalls (active : Finset ℕ) : List (ℕ × ApiExit) → Finset ℕ
  | [] => active
  | c :: rest => runApiCalls (makeApiCallExit active c.1 c.2) rest

/-- The init object `makeApiCall` builds and passes to `fetch`
(src/agent/web/static/js/app.js lines 252-260): upper-cased method, the two
fixed headers, a `timeout` property, and no `signal` — the function never
constructs an `AbortController`. -/
structure FetchInit where
  method : String
  headers : List (String × String)
  timeout : Option ℕ
  signal : Option ℕ
deriving DecidableEq

/-- The `config` object of `makeApiCall` for a call with the given method and
`options.timeout` (line 258: `options.timeout || APP_CONFIG.apiTimeout`). -/
def makeApiCallInit (method : String) (optionsTimeout : Option ℕ) : FetchInit :=
  { method := method
    headers := [("Content-Type", "application/json"), ("X-Requested-With", "XMLHttpRequest")]
    timeout := some (optionsTimeout.getD APP_CONFIG.apiTimeout)
    signal := none }

/-- Behavior of the contacted server: after how many milliseconds it responds,
`none` meaning it never responds. -/
structure ServerBehavior where
  respondsAfter : Option ℕ
deriving DecidableEq

/-- Whether the `fetch` promise has settled by time `t`, modelled from the
WHATWG fetch standard: it settles when the server responds or when the request
is aborted through the `signal` member of the init object; an init property
named `timeout` is not part of the fetch API and has no effect. -/
def fetchSettledBy (init : FetchInit) (srv : ServerBehavior) (t : ℕ) : Bool :=
  match srv.respondsAfter, init.signal with
  | some d, some a => min d a ≤ t
  | some d, none => d ≤ t
  | none, some a => a ≤ t
  | none, none => false

/-! ## `formatBytes` (src/agent/web/static/js/app.js lines 497-507)

`Math.floor(Math.log(bytes) / Math.log(1024))` on a positive integer is
modelled by the exact integer logarithm `Nat.log 1024`; `Math.log` of a
negative argument is `NaN`, modelled by `none`.  `toFixed` follows
ECMA-262 `Number.prototype.toFixed`: it raises a `RangeError` when its
argument exceeds 100, and renders `NaN` as the string `NaN`. -/

/-- Decimal rendering of a nonnegative rational with exactly `digits` digits
after the point, rounding half away from zero as `toFixed` does. -/
def jsToFixedPos (q : ℚ) (digits : ℕ) : String :=
  let n : ℕ := (Int.floor (q * 10 ^ digits + 1 / 2)).toNat
  if digits = 0 then toString n
  else
    let s := toString n
    let s := String.mk (List.replicate (digits + 1 - s.length) '0') ++ s
    s.take (s.length - digits) ++ "." ++ s.drop (s.length - digits)

/-- Decimal rendering of a rational with exactly `digits` digits after the
point, as `toFixed` produces for a finite value. -/
def jsToFixedNumber (q : ℚ) (digits : ℕ) : String :=
  if q < 0 then "-" ++ jsToFixedPos (-q) digits else jsToFixedPos q digits

/-- ECMA-262 `Number.prototype.toFixed`: a `RangeError` (modelled as
`Except.error ()`) when the digit count exceeds 100, the string `NaN` for a
`NaN` receiver (`none`), otherwise the fixed-point rendering. -/
def jsToFixed (x : Option ℚ) (digits : ℕ) : Except Unit String :=
  if 100 < digits then .error ()
  else
    match x with
    | none => .ok "NaN"
    | some q => .ok (jsToFixedNumber q digits)

/-- Effect of `parseFloat` followed by string coercion on the output of
`toFixed`: trailing zeros after a decimal point are dropped, and a then-bare
trailing point is dropped too. -/
def jsParseFloatRender (s : String) : String :=
  if s.contains '.' then
    let l := (s.toList.reverse.dropWhile (fun c => c = '0')).reverse
    let l := if l.getLast? = some '.' then l.dropLast else l
    String.mk l
  else s

/-- The index `i = Math.floor(Math.log(bytes) / Math.log(1024))` of
`formatBytes`; `none` models the `NaN` produced for a negative argument. -/
def formatBytesIndex (bytes : ℤ) : Option ℕ :=
  if 0 < bytes then some (Nat.log 1024 bytes.toNat) else none

/-- The unit picked by `sizes[i]` in `formatBytes`: the five-element array
`['B', 'KB', 'MB', 'GB', 'TB']` indexed out of range yields `undefined`,
which string concatenation renders as the text `undefined`. -/
def formatBytesUnit (i : Option ℕ) : String :=
  match i with
  | some n => ["B", "KB", "MB", "GB", "TB"].getD n "undefined"
  | none => "undefined"

/-- Embedding of `formatBytes(bytes, decimals)`
(src/agent/web/static/js/app.js lines 497-507): the zero shortcut, the clamp
`dm = decimals < 0 ? 0 : decimals`, the logarithmic index, the division by
`Math.pow(1024, i)`, `toFixed`, `parseFloat`, and the unit suffix. -/
def formatBytes (bytes : ℤ) (decimals : ℤ) : Except Unit String :=
  if bytes = 0 then .ok "0 B"
  else
    match jsToFixed ((formatBytesIndex bytes).map fun n => (bytes : ℚ) / 1024 ^ n)
        (if decimals < 0 then 0 else decimals.toNat) with
    | .error e => .error e
    | .ok s => .ok (jsParseFloatRender s ++ " " ++ formatBytesUnit (formatBytesIndex bytes))

/-! ## `setDebugMode` and script-load persistence
(src/agent/web/static/js/app.js lines 632-648) -/

/-- The parts of browser state that `setDebugMode` touches: the
`APP_CONFIG.debugMode` flag, the `localStorage` value under key `debugMode`,
and the `debug-mode` class on the document body. -/
structure WebUiState where
  debugMode : Bool
  storedDebugMode : Option String
  bodyDebugClass : Bool
deriving DecidableEq

/-- JavaScript string coercion of a boolean, as applied by
`localStorage.setItem('debugMode', enabled)`. -/
def jsBoolString : Bool → String
  | true => "true"
  | false => "false"

/-- Embedding of `setDebugMode(enabled)` (lines 632-643): sets the flag, stores
the string form, toggles the body class. -/
def setDebugMode (enabled : Bool) (s : WebUiState) : WebUiState :=
  { debugMode := enabled
    storedDebugMode := some (jsBoolString enabled)
    bodyDebugClass := enabled }

/-- State after the script loads with `stored` already in `localStorage` under
key `debugMode`: `APP_CONFIG` starts with `debugMode: false` (line 13), then
lines 646-648 call `setDebugMode(true)` exactly when the stored value is the
string `true`. -/
def scriptLoadState (stored : Option String) : WebUiState :=
  let s0 : WebUiState :=
    { debugMode := APP_CONFIG.debugMode, storedDebugMode := stored, bodyDebugClass := false }
  if stored = some "true" then setDebugMode true s0 else s0

/-! ## Report assembly (modelled from the spec)

The collection core described by the specification (agent/core/collector.py,
sender.py, scheduler.py in the documented layout) is not part of `src/`; the
definitions below are modelled from the specification's words. -/

/-- Modelled from the spec: the four fact domains a probe can cover (§3). -/
inductive ProbeDomain
  | system
  | hardware
  | software
  | network
deriving DecidableEq

/-- Modelled from the spec: the outcome of one enabled probe — a structured
result, or a typed failure captured inside the result (§4.1). -/
inductive ProbeOutcome
  | ok (domain : ProbeDomain) (facts : List (String × String))
  | failed (domain : ProbeDomain) (error : String)
deriving DecidableEq

/-- Whether a probe outcome is a failure. -/
def ProbeOutcome.isFailure : ProbeOutcome → Bool
  | .ok _ _ => false
  | .failed _ _ => true

/-- Modelled from the spec: report completeness — `full`, or `partialReport`
standing for the spec's `partial` (§3). -/
inductive Completeness
  | full
  | partialReport
deriving DecidableEq

/-- Modelled from the spec: a report as assembled from one collection cycle
(§3): identifier, host identity, the probe results, and completeness. -/
structure Report where
  reportId : ℕ
  hostname : String
  probeResults : List ProbeOutcome
  completeness : Completeness
deriving DecidableEq

/-- Modelled from the spec: `assemble(enabled_domains)` merges every enabled
probe's outcome into one report; a probe failure does not abort the cycle, and
completeness is `partial` exactly when at least one probe failed (§4.2). -/
def assemble (reportId : ℕ) (hostname : String) (outcomes : List ProbeOutcome) : Report :=
  { reportId := reportId
    hostname := hostname
    probeResults := outcomes
    completeness :=
      if outcomes.any ProbeOutcome.isFailure then .partialReport else .full }

/-- Modelled from the spec: JSON serialization of a report for transmission
(§6; the exact wire schema is probe-specific and out of the core's scope). -/
def serializeReport (r : Report) : String :=
  "\x7b\"report_id\": " ++ toString r.reportId ++ ", \"hostname\": \"" ++ r.hostname
    ++ "\", \"results\": " ++ toString r.probeResults.length ++ "\x7d"

/-! ## Delivery queue (modelled from the spec) -/

/-- Modelled from the spec: the lifecycle state of a delivery-queue entry —
actively pending delivery, or dead-lettered (§3, glossary). -/
inductive EntryState
  | pending
  | deadLetter
deriving DecidableEq

/-- Modelled from the spec: a delivery-queue entry: the report, an attempt
count, the earliest next delivery time, and its lifecycle state (§3). -/
structure QueueEntry where
  report : Report
  attemptCount : ℕ
  nextEligibleAt : ℕ
  state : EntryState
deriving DecidableEq

/-- Modelled from the spec: the backoff interval before retry number
`attempt + 1`: exponential in the attempt count, jittered, capped at a maximum
interval (§4.3; base and cap come from the configured backoff bounds, §6). -/
def backoffInterval (base cap attempt jitter : ℕ) : ℕ :=
  min cap (base * 2 ^ attempt + jitter)

/-- Modelled from the spec: `requeue(report_id, error)` after a retryable
failure at time `now`: it increments `attempt_count`, computes the next backoff
interval, and fails closed into `dead_letter` once `attempt_count` exceeds the
configured maximum (§4.3). -/
def requeue (maxRetries base cap now jitter : ℕ) (e : QueueEntry) : QueueEntry :=
  if maxRetries < e.attemptCount + 1 then
    { e with attemptCount := e.attemptCount + 1, state := .deadLetter }
  else
    { e with
        attemptCount := e.attemptCount + 1
        nextEligibleAt := now + backoffInterval base cap e.attemptCount jitter }

/-- Modelled from the spec: the sender's retry loop over a sequence of
retryable delivery failures, each given as (time, jitter): an entry is
attempted only while pending, and each failed attempt is requeued (§4.3-§4.4). -/
def runRetryFailures (maxRetries base cap : ℕ) : QueueEntry → List (ℕ × ℕ) → QueueEntry
  | e, [] => e
  | e, ev :: rest =>
      runRetryFailures maxRetries base cap
        (if e.state = .pending then requeue maxRetries base cap ev.1 ev.2 e else e) rest

/-- Modelled from the spec: how many send attempts the sender makes on an entry
over a sequence of retryable failures — one per failure event while the entry
is still pending, none once it is dead-lettered (§4.3-§4.4). -/
def attemptsMade (maxRetries base cap : ℕ) : QueueEntry → List (ℕ × ℕ) → ℕ
  | _, [] => 0
  | e, ev :: rest =>
      if e.state = .pending then
        1 + attemptsMade maxRetries base cap (requeue maxRetries base cap ev.1 ev.2 e) rest
      else attemptsMade maxRetries base cap e rest

/-! ## Sender (modelled from the spec) -/

/-- Modelled from the spec: the typed failures one send can produce (§4.4,
§7): network unreachable, request timeout, a 5xx-class server response, an
authentication rejection (4xx auth-class), a malformed-request response. -/
inductive SendFailure
  | networkUnreachable
  | requestTimeout
  | serverError (code : ℕ)
  | authRejected (code : ℕ)
  | malformedRequest (code : ℕ)
deriving DecidableEq

/-- Modelled from the spec: the two failure classes of §4.4. -/
inductive FailureClass
  | retryable
  | terminal
deriving DecidableEq

/-- Modelled from the spec: failure classification (§4.4): network-unreachable,
timeout, and 5xx-class responses are retryable; authentication rejection and
malformed-request responses are terminal. -/
def classifyFailure : SendFailure → FailureClass
  | .networkUnreachable => .retryable
  | .requestTimeout => .retryable
  | .serverError _ => .retryable
  | .authRejected _ => .terminal
  | .malformedRequest _ => .terminal

/-- Modelled from the spec: how the sender resolves one failed attempt at time
`now`: a retryable failure is requeued with backoff; a terminal failure
dead-letters the entry at once — the attempt still counts, and no backoff wait
is scheduled (§4.3-§4.4, §8 scenarios). -/
def resolveFailedAttempt (maxRetries base cap now jitter : ℕ)
    (e : QueueEntry) (f : SendFailure) : QueueEntry :=
  match classifyFailure f with
  | .retryable => requeue maxRetries base cap now jitter e
  | .terminal => { e with attemptCount := e.attemptCount + 1, state := .deadLetter }

/-- Modelled from the spec: the sender's resolved configuration (§6). -/
structure SenderConfig where
  serverUrl : String
  authToken : String
  requestTimeout : ℕ
  verifySsl : Bool
deriving DecidableEq

/-- An HTTP request as the sender emits it. -/
structure HttpRequest where
  scheme : String
  method : String
  url : String
  headers : List (String × String)
  body : String
deriving DecidableEq

/-- Modelled from the spec: the wire contract of one transmission (§6): an
HTTPS POST of the serialized report as the body, a bearer/token authentication
header, JSON content type. -/
def buildSendRequest (cfg : SenderConfig) (r : Report) : HttpRequest :=
  { scheme := "https"
    method := "POST"
    url := cfg.serverUrl
    headers :=
      [("Authorization", "Bearer " ++ cfg.authToken), ("Content-Type", "application/json")]
    body := serializeReport r }

/-- Modelled from the spec: success classification of the endpoint's response —
any 2xx status is a success; the response body is passed in but never consulted
(§6). -/
def responseDelivered (status : ℕ) (responseBody : String) : Bool :=
  decide (200 ≤ status) && decide (status < 300)

/-! ## Delivery store and acknowledgement (modelled from the spec) -/

/-- Modelled from the spec: the delivery queue's durable store: the active
entries in enqueue order, plus the identifiers of acknowledged reports (§4.3,
§6: an acknowledged report must be neither lost nor delivered again). -/
structure DeliveryStore where
  entries : List QueueEntry
  acked : List ℕ
deriving DecidableEq

/-- Modelled from the spec: `enqueue(report)` appends a fresh pending entry with
`attempt_count` 0, eligible at once (§4.3). -/
def enqueueReport (s : DeliveryStore) (now : ℕ) (r : Report) : DeliveryStore :=
  { s with
      entries :=
        s.entries ++ [{ report := r, attemptCount := 0, nextEligibleAt := now, state := .pending }] }

/-- Modelled from the spec: `ack(report_id)` on confirmed delivery removes the
report from the active entries and durably records its identifier as
acknowledged (§4.3, §6). -/
def ack (s : DeliveryStore) (rid : ℕ) : DeliveryStore :=
  { entries := s.entries.filter fun e => e.report.reportId ≠ rid
    acked := s.acked.insert rid }

/-- Modelled from the spec: `peek_ready()` returns the oldest pending entry
whose `next_eligible_at` has elapsed, skipping not-yet-eligible entries
(§4.3); a drain pass sends at most what `peek_ready` returns. -/
def peekReady (s : DeliveryStore) (now : ℕ) : Option QueueEntry :=
  s.entries.find? fun e => e.state = EntryState.pending ∧ e.nextEligibleAt ≤ now

/-! ## Scheduler (modelled from the spec) -/

/-- Modelled from the spec: the events the scheduler reacts to (§4.5): a
cadence timer tick, a manual trigger request, and completion of the active
collection cycle. -/
inductive SchedEvent
  | tick
  | trigger
  | complete
deriving DecidableEq

/-- Modelled from the spec: scheduler state (§3, §4.5).  The number of cycles
currently in `Running` state is counted (rather than kept as a boolean) so that
the at-most-one-concurrent-cycle property is expressible; a trigger arriving
while a cycle runs is recorded in `pendingTrigger`. -/
structure SchedState where
  runningCycles : ℕ
  pendingTrigger : Bool
deriving DecidableEq

/-- Modelled from the spec: the scheduler's initial state: idle, nothing
pending (§4.5). -/
def schedInit : SchedState := { runningCycles := 0, pendingTrigger := false }

/-- Modelled from the spec: the scheduler's transition function (§4.5): a tick
or trigger starts a cycle only from idle; a trigger while running is coalesced
into `pendingTrigger`; on completion, a coalesced trigger starts the next cycle
immediately, otherwise the scheduler returns to idle. -/
def schedStep (s : SchedState) : SchedEvent → SchedState
  | .tick =>
      if s.runningCycles = 0 then { s with runningCycles := s.runningCycles + 1 }
      else s
  | .trigger =>
      if s.runningCycles = 0 then { s with runningCycles := s.runningCycles + 1 }
      else { s with pendingTrigger := true }
  | .complete =>
      if s.runningCycles = 0 then s
      else if s.pendingTrigger then
        { runningCycles := s.runningCycles - 1 + 1, pendingTrigger := false }
      else { runningCycles := s.runningCycles - 1, pendingTrigger := false }

/-- The scheduler state reached from the initial state by a sequence of timer
ticks, manual triggers, and cycle completions. -/
def schedRun (evs : List SchedEvent) : SchedState := evs.foldl schedStep schedInit

/-- A sample delivery-queue entry used by concrete instantiations: a fresh
pending entry for a full report, enqueued at time 0. -/
def demoEntry : QueueEntry :=
  { report := { reportId := 1, hostname := "host", probeResults := [], completeness := .full }
    attemptCount := 0
    nextEligibleAt := 0
    state := .pending }

/-! ## Theorems -/

/-- Helper: a dead-lettered entry is never attempted again by the sender's
retry loop. -/
theorem attemptsMade_of_deadLetter (maxRetries base cap : ℕ) (e : QueueEntry)
    (h : e.state = EntryState.deadLetter) (evs : List (ℕ × ℕ)) :
    attemptsMade maxRetries base cap e evs = 0 := by
  induction evs with
  | nil => rfl
  | cons ev rest ih =>
      simp only [attemptsMade]
      rw [if_neg (by simp [h])]
      exact ih

/-- Helper: every requeue increments the attempt count by exactly one,
whichever branch is taken. -/
theorem requeue_attemptCount (maxRetries base cap now jitter : ℕ) (e : QueueEntry) :
    (requeue maxRetries base cap now jitter e).attemptCount = e.attemptCount + 1 := by
  simp only [requeue]
  split_ifs <;> rfl

/-- Helper: while a pending entry's attempt count has not passed the maximum,
the number of attempts the retry loop makes on it is bounded by the attempts it
has left plus the final dead-lettering one. -/
theorem attemptsMade_le (maxRetries base cap : ℕ) :
    ∀ (evs : List (ℕ × ℕ)) (e : QueueEntry), e.state = EntryState.pending →
      e.attemptCount ≤ maxRetries →
      attemptsMade maxRetries base cap e evs ≤ maxRetries + 1 - e.attemptCount := by
  intro evs
  induction evs with
  | nil => intro e _ _; simp [attemptsMade]
  | cons ev rest ih =>
      intro e hp hc
      simp only [attemptsMade, if_pos hp]
      by_cases hmax : maxRetries < e.attemptCount + 1
      · have hdead : (requeue maxRetries base cap ev.1 ev.2 e).state = EntryState.deadLetter := by
          simp [requeue, if_pos hmax]
        rw [attemptsMade_of_deadLetter maxRetries base cap _ hdead rest]
        omega
      · have hpend : (requeue maxRetries base cap ev.1 ev.2 e).state = EntryState.pending := by
          simp [requeue, if_neg hmax, hp]
        have hcnt := requeue_attemptCount maxRetries base cap ev.1 ev.2 e
        have hrec := ih (requeue maxRetries base cap ev.1 ev.2 e) hpend (by omega)
        rw [hcnt] at hrec
        omega

/-- C1: under the configured maximum APP_CONFIG.maxRetries = 3, every requeue
of a pending delivery-queue entry increments attempt_count by exactly 1; while
the entry stays pending its next_eligible_at strictly increases (positive
capped exponential backoff applied after the eligibility time); the entry is
dead-lettered exactly when its attempt count passes the maximum; and over any
sequence of retryable failures the sender attempts an entry starting at
attempt_count 0 at most maxRetries + 1 times. -/
theorem C1_requeue_backoff_deadletter (base cap now jitter : ℕ)
    (hbase : 1 ≤ base) (hcap : 1 ≤ cap) (e : QueueEntry)
    (hpend : e.state = EntryState.pending) (hnow : e.nextEligibleAt ≤ now)
    (evs : List (ℕ × ℕ)) :
    (requeue APP_CONFIG.maxRetries base cap now jitter e).attemptCount = e.attemptCount + 1 ∧
    ((requeue APP_CONFIG.maxRetries base cap now jitter e).state = EntryState.pending →
      e.nextEligibleAt < (requeue APP_CONFIG.maxRetries base cap now jitter e).nextEligibleAt) ∧
    ((requeue APP_CONFIG.maxRetries base cap now jitter e).state = EntryState.deadLetter ↔
      APP_CONFIG.maxRetries < e.attemptCount + 1) ∧
    (e.attemptCount = 0 →
      attemptsMade APP_CONFIG.maxRetries base cap e evs ≤ APP_CONFIG.maxRetries + 1) := by
  have hb1 : 1 ≤ backoffInterval base cap e.attemptCount jitter := by
    have h2 : 1 ≤ base * 2 ^ e.attemptCount :=
      Nat.one_le_iff_ne_zero.2 (Nat.mul_ne_zero (by omega) (Nat.pos_iff_ne_zero.1 (Nat.pos_pow_of_pos _ (by omega))))
    exact le_min hcap (le_trans h2 (Nat.le_add_right _ _))
  refine ⟨requeue_attemptCount _ _ _ _ _ _, ?_, ?_, ?_⟩
  · intro hres
    by_cases hmax : APP_CONFIG.maxRetries < e.attemptCount + 1
    · exfalso
      have : (requeue APP_CONFIG.maxRetries base cap now jitter e).state = EntryState.deadLetter := by
        simp [requeue, if_pos hmax]
      rw [this] at hres
      exact absurd hres (by simp)
    · have : (requeue APP_CONFIG.maxRetries base cap now jitter e).nextEligibleAt =
          now + backoffInterval base cap e.attemptCount jitter := by
        simp [requeue, if_neg hmax]
      omega
  · by_cases hmax : APP_CONFIG.maxRetries < e.attemptCount + 1
    · simp [requeue, if_pos hmax, hmax]
    · simp [requeue, if_neg hmax, hpend, hmax]
  · intro h0
    have := attemptsMade_le APP_CONFIG.maxRetries base cap evs e hpend (by omega)
    omega

/-- Witness for C1 at a concrete entry and failure trace. -/
theorem C1_witness :
    (requeue APP_CONFIG.maxRetries 1 8 5 0 demoEntry).attemptCount = demoEntry.attemptCount + 1 ∧
    attemptsMade APP_CONFIG.maxRetries 1 8 demoEntry [(5, 0), (7, 0), (10, 0), (15, 0), (20, 0)] ≤
      APP_CONFIG.maxRetries + 1 :=
  ⟨(C1_requeue_backoff_deadletter 1 8 5 0 (by decide) (by decide) demoEntry rfl (by decide)
      [(5, 0), (7, 0), (10, 0), (15, 0), (20, 0)]).1,
   (C1_requeue_backoff_deadletter 1 8 5 0 (by decide) (by decide) demoEntry rfl (by decide)
      [(5, 0), (7, 0), (10, 0), (15, 0), (20, 0)]).2.2.2 rfl⟩

/-- C2: the code does not enforce the configured request timeout.  `makeApiCall`
records `options.timeout || APP_CONFIG.apiTimeout` under a `timeout` key of the
fetch init object — a key the fetch API does not recognize — and wires no abort
signal, so against a server that never responds the call has not settled by any
finite time, including the configured 30000 ms. -/
theorem C2_timeout_not_enforced :
    (makeApiCallInit "POST" none).timeout = some APP_CONFIG.apiTimeout ∧
    (∀ (m : String) (ot : Option ℕ), (makeApiCallInit m ot).signal = none) ∧
    (∀ t : ℕ, fetchSettledBy (makeApiCallInit "POST" none) ⟨none⟩ t = false) :=
  ⟨rfl, fun _ _ => rfl, fun _ => rfl⟩

/-- C3: network-unreachable, timeout and 5xx-class failures are retryable;
authentication rejections and malformed-request responses are terminal; a
terminal failure dead-letters the entry immediately — the attempt still counts,
next_eligible_at is untouched (no backoff wait), on a first attempt the final
attempt_count is 1, and a dead-lettered entry is never attempted again. -/
theorem C3_failure_classification (maxRetries base cap now jitter code : ℕ)
    (e : QueueEntry) (f : SendFailure)
    (hterm : classifyFailure f = FailureClass.terminal) (evs : List (ℕ × ℕ)) :
    classifyFailure SendFailure.networkUnreachable = FailureClass.retryable ∧
    classifyFailure SendFailure.requestTimeout = FailureClass.retryable ∧
    classifyFailure (SendFailure.serverError code) = FailureClass.retryable ∧
    classifyFailure (SendFailure.authRejected code) = FailureClass.terminal ∧
    classifyFailure (SendFailure.malformedRequest code) = FailureClass.terminal ∧
    (resolveFailedAttempt maxRetries base cap now jitter e f).state = EntryState.deadLetter ∧
    (resolveFailedAttempt maxRetries base cap now jitter e f).attemptCount = e.attemptCount + 1 ∧
    (resolveFailedAttempt maxRetries base cap now jitter e f).nextEligibleAt = e.nextEligibleAt ∧
    (e.attemptCount = 0 →
      (resolveFailedAttempt maxRetries base cap now jitter e f).attemptCount = 1) ∧
    attemptsMade maxRetries base cap (resolveFailedAttempt maxRetries base cap now jitter e f)
      evs = 0 := by
  have hres : resolveFailedAttempt maxRetries base cap now jitter e f =
      { e with attemptCount := e.attemptCount + 1, state := EntryState.deadLetter } := by
    simp [resolveFailedAttempt, hterm]
  refine ⟨rfl, rfl, rfl, rfl, rfl, ?_, ?_, ?_, ?_, ?_⟩
  · rw [hres]
  · rw [hres]
  · rw [hres]
  · intro h0; rw [hres]; simpa using h0
  · exact attemptsMade_of_deadLetter maxRetries base cap _ (by rw [hres]) evs

/-- Witness for C3 at a concrete terminal failure (invalid auth token, HTTP
401) on a first attempt. -/
theorem C3_witness :
    (resolveFailedAttempt 3 1 8 5 0 demoEntry (SendFailure.authRejected 401)).state =
      EntryState.deadLetter ∧
    (resolveFailedAttempt 3 1 8 5 0 demoEntry (SendFailure.authRejected 401)).attemptCount = 1 ∧
    (resolveFailedAttempt 3 1 8 5 0 demoEntry (SendFailure.authRejected 401)).nextEligibleAt =
      demoEntry.nextEligibleAt ∧
    attemptsMade 3 1 8 (resolveFailedAttempt 3 1 8 5 0 demoEntry (SendFailure.authRejected 401))
      [(6, 0), (9, 0)] = 0 :=
  ⟨(C3_failure_classification 3 1 8 5 0 401 demoEntry (SendFailure.authRejected 401) rfl
      [(6, 0), (9, 0)]).2.2.2.2.2.1,
   (C3_failure_classification 3 1 8 5 0 401 demoEntry (SendFailure.authRejected 401) rfl
      [(6, 0), (9, 0)]).2.2.2.2.2.2.2.2.1 rfl,
   (C3_failure_classification 3 1 8 5 0 401 demoEntry (SendFailure.authRejected 401) rfl
      [(6, 0), (9, 0)]).2.2.2.2.2.2.2.1,
   (C3_failure_classification 3 1 8 5 0 401 demoEntry (SendFailure.authRejected 401) rfl
      [(6, 0), (9, 0)]).2.2.2.2.2.2.2.2.2⟩

/-- C4: every transmission the sender builds is an HTTPS POST whose body is the
serialized report, carrying a bearer authentication header and JSON content
type, and the response is classified a success exactly when its status is 2xx —
independently of the response body. -/
theorem C4_wire_contract (cfg : SenderConfig) (r : Report) (status : ℕ) (b1 b2 : String) :
    (buildSendRequest cfg r).scheme = "https" ∧
    (buildSendRequest cfg r).method = "POST" ∧
    (buildSendRequest cfg r).body = serializeReport r ∧
    ("Authorization", "Bearer " ++ cfg.authToken) ∈ (buildSendRequest cfg r).headers ∧
    ("Content-Type", "application/json") ∈ (buildSendRequest cfg r).headers ∧
    responseDelivered status b1 = responseDelivered status b2 ∧
    (responseDelivered status b1 = true ↔ 200 ≤ status ∧ status < 300) := by
  refine ⟨rfl, rfl, rfl, by simp [buildSendRequest], by simp [buildSendRequest], rfl, ?_⟩
  simp [responseDelivered]

/-- C5: the assembled report has completeness partial exactly when at least one
enabled probe failed and full exactly when none did; no probe outcome is
dropped from the report; and for every outcome sequence — including one with
zero successes — the report is produced and lands in the delivery queue. -/
theorem C5_assemble_completeness (reportId : ℕ) (host : String)
    (outcomes : List ProbeOutcome) (s : DeliveryStore) (now : ℕ) :
    ((assemble reportId host outcomes).completeness = Completeness.partialReport ↔
      ∃ o ∈ outcomes, o.isFailure = true) ∧
    ((assemble reportId host outcomes).completeness = Completeness.full ↔
      ∀ o ∈ outcomes, o.isFailure = false) ∧
    (assemble reportId host outcomes).probeResults = outcomes ∧
    (∃ e ∈ (enqueueReport s now (assemble reportId host outcomes)).entries,
      e.report = assemble reportId host outcomes) := by
  have hpart : (assemble reportId host outcomes).completeness = Completeness.partialReport ↔
      outcomes.any ProbeOutcome.isFailure = true := by
    cases h : outcomes.any ProbeOutcome.isFailure with
    | true => simp [assemble, h]
    | false => simp [assemble, h]
  have hfull : (assemble reportId host outcomes).completeness = Completeness.full ↔
      ¬ outcomes.any ProbeOutcome.isFailure = true := by
    cases h : outcomes.any ProbeOutcome.isFailure with
    | true => simp [assemble, h]
    | false => simp [assemble, h]
  refine ⟨?_, ?_, rfl, ?_⟩
  · rw [hpart, List.any_eq_true]
  · rw [hfull, List.any_eq_true]
    simp
  · refine ⟨⟨assemble reportId host outcomes, 0, now, EntryState.pending⟩, ?_, rfl⟩
    simp [enqueueReport]

/-- Helper: one scheduler step preserves the bound of at most one running
cycle. -/
theorem schedStep_runningCycles_le (s : SchedState) (ev : SchedEvent)
    (h : s.runningCycles ≤ 1) : (schedStep s ev).runningCycles ≤ 1 := by
  cases ev <;> simp only [schedStep] <;> split_ifs <;> (try exact h) <;> simp <;> omega

/-- Helper: from the initial state, every interleaving of ticks, triggers and
completions keeps at most one cycle in Running state. -/
theorem schedRun_runningCycles_le (evs : List SchedEvent) :
    (schedRun evs).runningCycles ≤ 1 := by
  suffices h : ∀ (l : List SchedEvent) (s : SchedState), s.runningCycles ≤ 1 →
      (l.foldl schedStep s).runningCycles ≤ 1 from h evs schedInit (by simp [schedInit])
  intro l
  induction l with
  | nil => intro s hs; simpa using hs
  | cons e rest ih => intro s hs; exact ih _ (schedStep_runningCycles_le s e hs)

/-- C6: for every interleaving of timer ticks, manual triggers and completions
at most one collection cycle is ever in Running state; a trigger arriving while
a cycle runs is coalesced — it is recorded in the pending flag and starts no
second concurrent cycle — and on completion a recorded trigger runs exactly one
follow-up cycle. -/
theorem C6_single_running_cycle (evs : List SchedEvent) (s : SchedState)
    (hrun : s.runningCycles = 1) :
    (schedRun evs).runningCycles ≤ 1 ∧
    (schedStep s SchedEvent.trigger).runningCycles = s.runningCycles ∧
    (schedStep s SchedEvent.trigger).pendingTrigger = true ∧
    (s.pendingTrigger = true →
      schedStep s SchedEvent.complete = { runningCycles := 1, pendingTrigger := false }) := by
  refine ⟨schedRun_runningCycles_le evs, ?_, ?_, ?_⟩
  · simp [schedStep, hrun]
  · simp [schedStep, hrun]
  · intro hp
    simp [schedStep, hrun, hp]

/-- Witness for C6 at a concrete interleaving and a concrete running state with
a coalesced trigger pending. -/
theorem C6_witness :
    (schedRun [SchedEvent.tick, SchedEvent.trigger, SchedEvent.complete]).runningCycles ≤ 1 ∧
    schedStep { runningCycles := 1, pendingTrigger := true } SchedEvent.complete =
      { runningCycles := 1, pendingTrigger := false } :=
  ⟨(C6_single_running_cycle [SchedEvent.tick, SchedEvent.trigger, SchedEvent.complete]
      { runningCycles := 1, pendingTrigger := true } rfl).1,
   (C6_single_running_cycle [SchedEvent.tick, SchedEvent.trigger, SchedEvent.complete]
      { runningCycles := 1, pendingTrigger := true } rfl).2.2.2 rfl⟩

/-- C7: acknowledgement is idempotent: acking an already-acked identifier again
changes nothing, and on a store whose active entries exclude acked identifiers,
re-acking an already-acked identifier is a strict no-op; a drain pass after the
ack can never pick the acked report for another send attempt; and the acked
identifier is durably retained. -/
theorem C7_ack_idempotent (s : DeliveryStore) (rid now : ℕ) :
    ack (ack s rid) rid = ack s rid ∧
    ((∀ e ∈ s.entries, e.report.reportId ∉ s.acked) → rid ∈ s.acked → ack s rid = s) ∧
    (∀ e, peekReady (ack s rid) now = some e → e.report.reportId ≠ rid) ∧
    rid ∈ (ack s rid).acked := by
  refine ⟨?_, ?_, ?_, List.mem_insert_self rid s.acked⟩
  · simp only [ack]
    congr 1
    · exact List.filter_eq_self.2 fun a ha => (List.mem_filter.1 ha).2
    · exact List.insert_of_mem (List.mem_insert_self rid s.acked)
  · intro hwf hrid
    have hent : s.entries.filter (fun e => e.report.reportId ≠ rid) = s.entries :=
      List.filter_eq_self.2 fun a ha =>
        decide_eq_true fun hEq => hwf a ha (by rw [hEq]; exact hrid)
    have hack : s.acked.insert rid = s.acked := List.insert_of_mem hrid
    simp only [ack, hent, hack]
  · intro e he
    have hmem : e ∈ (ack s rid).entries := List.mem_of_find?_eq_some he
    have := (List.mem_filter.1 hmem).2
    simpa using this

/-- Witness for C7 at a concrete store that already acked identifier 7. -/
theorem C7_witness :
    ack (ack { entries := [], acked := [7] } 7) 7 = ack { entries := [], acked := [7] } 7 ∧
    ack { entries := [], acked := [7] } 7 = { entries := [], acked := [7] } :=
  ⟨(C7_ack_idempotent { entries := [], acked := [7] } 7 0).1,
   (C7_ack_idempotent { entries := [], acked := [7] } 7 0).2.1 (by simp) (by simp)⟩

/-- C8: `makeApiCall` leaves `appState.activeRequests` as it found it: the
request id added on entry is erased in the `finally` block on every exit path —
normal return, non-ok HTTP status, network failure and JSON-parse failure alike
— so a sequence of completed calls with fresh ids leaks no identifier. -/
theorem C8_activeRequests_no_leak (active : Finset ℕ) (rid : ℕ) (p : ApiExit)
    (hfresh : rid ∉ active) (calls : List (ℕ × ApiExit))
    (hcalls : ∀ c ∈ calls, c.1 ∉ active) :
    makeApiCallExit active rid p = active ∧ runApiCalls active calls = active := by
  have hone : ∀ (r : ℕ) (q : ApiExit), r ∉ active → makeApiCallExit active r q = active := by
    intro r q hr
    simp [makeApiCallExit, makeApiCallEnter, Finset.erase_insert hr]
  have hrun : ∀ (l : List (ℕ × ApiExit)), (∀ c ∈ l, c.1 ∉ active) →
      runApiCalls active l = active := by
    intro l
    induction l with
    | nil => intro _; rfl
    | cons c rest ih =>
        intro h
        have hc := hone c.1 c.2 (h c (List.mem_cons_self c rest))
        simp only [runApiCalls, hc]
        exact ih fun d hd => h d (List.mem_cons_of_mem c hd)
  exact ⟨hone rid p hfresh, hrun calls hcalls⟩

/-- Witness for C8 at concrete fresh request ids over all-different exit
paths. -/
theorem C8_witness :
    makeApiCallExit ∅ 1 ApiExit.networkError = ∅ ∧
    runApiCalls ∅ [(1, ApiExit.success), (2, ApiExit.jsonParseError), (3, ApiExit.httpStatusError)] =
      ∅ :=
  C8_activeRequests_no_leak ∅ 1 ApiExit.networkError (by decide)
    [(1, ApiExit.success), (2, ApiExit.jsonParseError), (3, ApiExit.httpStatusError)] (by decide)

/-- C9 counterexample: `formatBytes` throws — `toFixed` raises a RangeError —
at bytes 1, decimals 101, refuting the never-throws conjunct of the claim. -/
theorem C9_counterexample : formatBytes 1 101 = Except.error () := rfl

/-- Helper: evaluation of `formatBytes` on a positive byte count with an
in-range digit count. -/
theorem formatBytes_pos_eval (bytes d : ℤ) (hb : bytes ≠ 0)
    (hd : ¬ 100 < (if d < 0 then 0 else d.toNat)) (n : ℕ)
    (hidx : formatBytesIndex bytes = some n) :
    formatBytes bytes d = Except.ok
      (jsParseFloatRender (jsToFixedNumber ((bytes : ℚ) / 1024 ^ n)
          (if d < 0 then 0 else d.toNat)) ++ " " ++ formatBytesUnit (some n)) := by
  rw [formatBytes, if_neg hb, hidx]
  simp only [Option.map_some', jsToFixed, if_neg hd]

/-- Helper: evaluation of `formatBytes` on a negative byte count (the `NaN`
path) with an in-range digit count. -/
theorem formatBytes_neg_eval (bytes d : ℤ) (hb : bytes ≠ 0)
    (hd : ¬ 100 < (if d < 0 then 0 else d.toNat))
    (hidx : formatBytesIndex bytes = none) :
    formatBytes bytes d = Except.ok (jsParseFloatRender "NaN" ++ " " ++ formatBytesUnit none) := by
  rw [formatBytes, if_neg hb, hidx]
  simp only [Option.map_none', jsToFixed, if_neg hd]

/-- C9 (amended): `formatBytes 0 d` returns the string `0 B` for every decimals
value; for every byte count of at least 1024^5 whose effective decimals value
is at most 100 the returned string carries unit suffix `undefined` (the unit
array stops at `TB` and the index is not clamped); and the function returns
without throwing whenever the effective decimals value is at most 100 — the
unrestricted never-throws conjunct fails because `toFixed` raises a RangeError
above 100 decimals. -/
theorem C9_formatBytes_amended :
    (∀ d : ℤ, formatBytes 0 d = Except.ok "0 B") ∧
    (∀ bytes d : ℤ, (1024 : ℤ) ^ 5 ≤ bytes → (if d < 0 then 0 else d.toNat) ≤ 100 →
      ∃ num : String, formatBytes bytes d = Except.ok (num ++ " " ++ "undefined")) ∧
    (∀ bytes d : ℤ, (if d < 0 then 0 else d.toNat) ≤ 100 →
      ∃ out : String, formatBytes bytes d = Except.ok out) := by
  refine ⟨fun d => by simp [formatBytes], ?_, ?_⟩
  · intro bytes d hbig hd
    have hb0 : (0 : ℤ) < bytes := lt_of_lt_of_le (by norm_num) hbig
    have hb : bytes ≠ 0 := ne_of_gt hb0
    have hnot : ¬ 100 < (if d < 0 then 0 else d.toNat) := by omega
    have hidx : formatBytesIndex bytes = some (Nat.log 1024 bytes.toNat) := by
      simp [formatBytesIndex, hb0]
    have hlog : 5 ≤ Nat.log 1024 bytes.toNat := by
      have h1 : (1024 : ℕ) ^ 5 ≤ bytes.toNat := by
        have := Int.toNat_le_toNat hbig
        simpa using this
      have hne : bytes.toNat ≠ 0 := by
        have : (1024 : ℕ) ^ 5 ≠ 0 := by norm_num
        omega
      exact (Nat.pow_le_iff_le_log (by norm_num) hne).1 h1
    have hunit : formatBytesUnit (some (Nat.log 1024 bytes.toNat)) = "undefined" := by
      simp only [formatBytesUnit]
      exact List.getD_eq_default _ _ (by simpa using hlog)
    refine ⟨jsParseFloatRender (jsToFixedNumber ((bytes : ℚ) / 1024 ^ Nat.log 1024 bytes.toNat)
        (if d < 0 then 0 else d.toNat)), ?_⟩
    rw [formatBytes_pos_eval bytes d hb hnot _ hidx, hunit]
  · intro bytes d hd
    by_cases hb : bytes = 0
    · exact ⟨"0 B", by simp [formatBytes, hb]⟩
    · have hnot : ¬ 100 < (if d < 0 then 0 else d.toNat) := by omega
      cases hidx : formatBytesIndex bytes with
      | none => exact ⟨_, formatBytes_neg_eval bytes d hb hnot hidx⟩
      | some n => exact ⟨_, formatBytes_pos_eval bytes d hb hnot n hidx⟩

/-- Witness for C9 at concrete inputs: zero bytes, a byte count of 1024^5, and
an ordinary in-range call. -/
theorem C9_witness :
    formatBytes 0 7 = Except.ok "0 B" ∧
    (∃ num : String, formatBytes ((1024 : ℤ) ^ 5) 2 = Except.ok (num ++ " " ++ "undefined")) ∧
    (∃ out : String, formatBytes 1536 2 = Except.ok out) :=
  ⟨C9_formatBytes_amended.1 7,
   C9_formatBytes_amended.2.1 ((1024 : ℤ) ^ 5) 2 (le_refl _) (by decide),
   C9_formatBytes_amended.2.2 1536 2 (by decide)⟩

/-- C10: `setDebugMode enabled` sets `APP_CONFIG.debugMode` to `enabled` and
stores its string form under the `debugMode` key; at script load a stored value
of `true` re-invokes `setDebugMode true`; so persisting the flag and reloading
the script round-trips the enabled state for both booleans. -/
theorem C10_setDebugMode_roundtrip :
    (∀ (enabled : Bool) (s : WebUiState),
      (setDebugMode enabled s).debugMode = enabled ∧
      (setDebugMode enabled s).storedDebugMode = some (jsBoolString enabled)) ∧
    (scriptLoadState (some "true") =
      setDebugMode true
        { debugMode := APP_CONFIG.debugMode, storedDebugMode := some "true",
          bodyDebugClass := false }) ∧
    (∀ (enabled : Bool) (s : WebUiState),
      (scriptLoadState (setDebugMode enabled s).storedDebugMode).debugMode = enabled) := by
  refine ⟨fun enabled s => ⟨rfl, rfl⟩, rfl, fun enabled s => ?_⟩
  cases enabled <;> rfl

end AgentClient
